import Mathlib

/-!
Verification of the AI-storyteller backend (FastAPI service in
`app/`).  The Python services are shallowly embedded: pure
computations become Lean functions, the document store becomes an
explicit state record, and the external capabilities (OpenAI
completion, embedding, image generation, AssemblyAI transcription,
`json.loads`) become function parameters, so every theorem is
quantified over their behaviour.
-/

namespace StoryTeller

/-! ## Reading-assessment pipeline (`app/services/audio_service.py`)

`AudioService.process_audio` computes
`error_rate = jiwer.wer(audio.whole_story, enhanced_transcript)` and
`score = max(0, 100 - (100 * error_rate))`.  `jiwer.wer` is the word
error rate: the word-level Levenshtein distance between the
space-tokenized reference and hypothesis, divided by the number of
reference words (jiwer's default transform collapses spaces, strips,
and reduces each string to its list of nonempty space-separated
words).  We embed that arithmetic over `ℚ`. -/

/-- Space tokenization used by `jiwer.wer`'s default transform:
split on spaces and drop empty words. -/
def wordTokens (s : String) : List String :=
  (s.splitOn " ").filter (fun w => w ≠ "")

/-- Word-level Levenshtein distance (uniform cost 1 for substitution,
insertion and deletion), the alignment used by `jiwer.wer`. -/
def levenshtein : List String → List String → Nat
  | [], ys => ys.length
  | x :: xs, [] => (x :: xs).length
  | x :: xs, y :: ys =>
    if x = y then levenshtein xs ys
    else 1 + min (levenshtein xs (y :: ys)) (min (levenshtein (x :: xs) ys) (levenshtein xs ys))
termination_by xs ys => xs.length + ys.length
decreasing_by
  all_goals simp [List.length_cons]
  all_goals omega

/-- Embedding of `jiwer.wer(reference, hypothesis)`: Levenshtein word distance over
the reference word count. -/
def wer (reference hyp : String) : ℚ :=
  (levenshtein (wordTokens reference) (wordTokens hyp) : ℚ) /
    ((wordTokens reference).length : ℚ)

/-- The score computed by `AudioService.process_audio`
(`audio_service.py` lines 245-254):
`score = max(0, 100 - (100 * error_rate))` with
`error_rate = wer(audio.whole_story, enhanced_transcript)`. -/
def process_audio_score (wholeStory enhancedTranscript : String) : ℚ :=
  max 0 (100 - 100 * wer wholeStory enhancedTranscript)

/-! ## Library retrieval (`app/services/rag_service.py`)

`RAGService.retrieve_from_user_library` embeds the query, asks the
Chroma vector store for `top_k * 3` nearest documents, and then
post-filters by metadata.  The vector store and embedding capability
are modelled as an opaque `index` function; the returned `Nat`
counts how many `similarity_search` calls (each of which embeds the
query) the service issued. -/

/-- Chroma document metadata as written by `add_story_to_index` /
`add_book_to_index`; `metadata.get(key)` returns `None` for an
absent key, modelled by `Option`. -/
structure DocMetadata where
  user_id : Option String
  child_age : Option Int
  type : Option String
deriving DecidableEq

/-- A langchain `Document`: page content plus metadata. -/
structure Document where
  page_content : String
  metadata : DocMetadata
deriving DecidableEq

/-- The `continue` chain of the filtering loop in
`retrieve_from_user_library` (rag_service.py lines 274-291): a
document is kept iff its `user_id` equals the requesting user, its
`child_age` equals the requested age, and its type is not an
excluded `book`/`story`. -/
def keep_doc (userId : String) (childAge : Int)
    (includeBooks includeStories : Bool) (d : Document) : Bool :=
  (d.metadata.user_id == some userId) &&
  (d.metadata.child_age == some childAge) &&
  !((d.metadata.type == some "book") && !includeBooks) &&
  !((d.metadata.type == some "story") && !includeStories)

/-- The accumulation loop of `retrieve_from_user_library`: append
each kept document and break once `top_k` results are collected. -/
def filter_loop (p : Document → Bool) (topK : Nat) :
    List Document → List Document → List Document
  | acc, [] => acc
  | acc, d :: ds =>
    if p d then
      if topK ≤ acc.length + 1 then acc ++ [d]
      else filter_loop p topK (acc ++ [d]) ds
    else filter_loop p topK acc ds

/-- Embedding of `RAGService.retrieve_from_user_library` (rag_service.py lines
243-299).  `index query k` stands for
`self.vector_store.similarity_search(query, k=k)`; the second
component of the result counts the similarity-search (and hence
query-embedding) calls issued, which the body performs
unconditionally, exactly once. -/
def retrieve_from_user_library (index : String → Nat → List Document)
    (query userId : String) (childAge : Int) (topK : Nat)
    (includeBooks includeStories : Bool) : List Document × Nat :=
  let results := index query (topK * 3)
  (filter_loop (keep_doc userId childAge includeBooks includeStories) topK [] results, 1)

/-- One entry of the context block built by
`story_graph.retrieve_context`: a running label plus the document's
first 400 characters. -/
def format_doc (i : Nat) (d : Document) : String :=
  "From your reading history " ++ toString (i + 1) ++ ":\n" ++
    d.page_content.take 400 ++ "..."

/-- The enumerated list comprehension in `retrieve_context`. -/
def format_docs : Nat → List Document → List String
  | _, [] => []
  | i, d :: ds => format_doc i d :: format_docs (i + 1) ds

/-- The `context_str` built by `retrieve_context`: empty when no
documents were retrieved, otherwise the labelled snippets joined by
blank lines. -/
def format_context (docs : List Document) : String :=
  if docs.isEmpty then ""
  else String.intercalate "\n\n" (format_docs 0 docs)

/-- Embedding of `story_graph.retrieve_context` (story_graph.py lines 42-56): if
neither `use_books_context` nor `use_history_context` is set, it
returns empty context without calling `retrieve_from_user_library`
at all (second component: number of similarity-search calls). -/
def retrieve_context (index : String → Nat → List Document)
    (storyTitle storyDescription userId : String) (childAge : Int)
    (useBooksContext useHistoryContext : Bool) : String × Nat :=
  if !(useBooksContext || useHistoryContext) then ("", 0)
  else
    let r := retrieve_from_user_library index
      (storyTitle ++ " " ++ storyDescription) userId childAge 3
      useBooksContext useHistoryContext
    (format_context r.1, r.2)

/-- A concrete index state: one book chunk owned by user `u1` at
age 5. -/
def bookDocU1 : Document :=
  { page_content := "a book chunk",
    metadata := { user_id := some "u1", child_age := some 5, type := some "book" } }

/-- A concrete index state holding chunks of two different owners. -/
def twoOwnerIndex : String → Nat → List Document := fun _ _ =>
  [ bookDocU1,
    { page_content := "another owner",
      metadata := { user_id := some "u2", child_age := some 5, type := some "book" } },
    { page_content := "story chunk",
      metadata := { user_id := some "u1", child_age := some 5, type := some "story" } } ]

/-! ## Story service (`app/services/story_service.py`)

The Beanie document store is modelled as an explicit `DB` record;
stateful service methods return `Except` and, where they write, the
updated `DB`.  The question-generation capability (OpenAI completion
plus JSON extraction) is a function parameter `gen`; `DB.genCalls`
counts its invocations. -/

/-- An embedded story page (`PageContent` in `app/schemas/story.py`). -/
structure PageContent where
  page_text : String
  page_image : Option String
deriving DecidableEq

/-- One element of the generated `storyContent` list; `pageText` is
optional because the code reads it with `page_data.get("pageText", "")`. -/
structure GenPage where
  pageText : Option String
deriving DecidableEq

/-- A stored `Story` document (`app/schemas/story.py`), with ids and
owners as naturals. -/
structure StoryDoc where
  id : Nat
  story_title : String
  story_description : String
  story_content : List PageContent
  story_author : String
  created_by : Nat
  max_pages : Nat
deriving DecidableEq

/-- An assignment question (`Question` in `app/schemas/assignment.py`). -/
structure Question where
  question : String
  answer : String
  user_answer : Option String
deriving DecidableEq

/-- A stored `Assignment` document keyed by `(sid, uid)`. -/
structure AssignmentDoc where
  id : Nat
  sid : Nat
  uid : Nat
  questions : List Question
deriving DecidableEq

/-- The document store, plus an id counter for inserts and a counter
of question-generation capability calls. -/
structure DB where
  stories : List StoryDoc
  assignments : List AssignmentDoc
  nextId : Nat
  genCalls : Nat
deriving DecidableEq

/-- The service exceptions of `app/exceptions/custom_exceptions.py`
raised by the story service. -/
inductive ServiceError where
  | notFound (msg : String)
  | forbidden (msg : String)
deriving DecidableEq

/-- Embedding of `Story.get(story_id)`. -/
def storyGet (db : DB) (storyId : Nat) : Option StoryDoc :=
  db.stories.find? (fun s => s.id == storyId)

/-- Embedding of `Assignment.find_one(Assignment.sid == story_id, Assignment.uid == user_id)`. -/
def assignmentFindOne (db : DB) (storyId userId : Nat) : Option AssignmentDoc :=
  db.assignments.find? (fun a => a.sid == storyId && a.uid == userId)

/-- Embedding of `StoryService.get_story` (story_service.py lines 143-168):
not-found check, then ownership check, then return. -/
def get_story (db : DB) (storyId userId : Nat) : Except ServiceError StoryDoc :=
  match storyGet db storyId with
  | none => .error (.notFound "Story not found")
  | some story =>
    if story.created_by ≠ userId then
      .error (.forbidden "Unauthorized access to this story")
    else
      .ok story

/-- The assignment document built by `create_assignment` before
insertion. -/
def newAssignment (db : DB) (storyId userId : Nat) (qs : List Question) :
    AssignmentDoc :=
  { id := db.nextId, sid := storyId, uid := userId, questions := qs }

/-- Embedding of `await assignment.insert()`: append the document and bump the id
counter; the enclosing call has just invoked the generation
capability, so `genCalls` is bumped too. -/
def insertAssignment (db : DB) (a : AssignmentDoc) : DB :=
  { db with
      assignments := db.assignments ++ [a],
      nextId := db.nextId + 1,
      genCalls := db.genCalls + 1 }

/-- Embedding of `StoryService.create_assignment` (story_service.py lines
200-248): return the existing assignment for `(story_id, user_id)`
if present; otherwise load the story (not-found if missing), call
the question-generation capability `gen`, and insert a new
assignment.  There is no ownership check anywhere in the method. -/
def create_assignment (gen : StoryDoc → List Question) (db : DB)
    (storyId userId : Nat) : Except ServiceError (AssignmentDoc × DB) :=
  match assignmentFindOne db storyId userId with
  | some existing => .ok (existing, db)
  | none =>
    match storyGet db storyId with
    | none => .error (.notFound "Story not found")
    | some story =>
      .ok (newAssignment db storyId userId (gen story),
           insertAssignment db (newAssignment db storyId userId (gen story)))

/-- The image-generation fan-out of `StoryService.create_story`
(story_service.py lines 59-70): when `include_image` is set, a
`generate_image` task is created for exactly the page positions `i`
with `i % 3 == 0 or i % 3 == 2`; otherwise no task is created. -/
def image_task_indices (includeImage : Bool) (pageCount : Nat) : List Nat :=
  if includeImage then
    (List.range pageCount).filter (fun i => i % 3 == 0 || i % 3 == 2)
  else []

/-- The page-building loop of `create_story` (story_service.py lines
82-109): one `PageContent` per generated page, in order.
`imageResults i` is the final `page_image` for position `i` (the
downloaded-and-reuploaded S3 URL, the OpenAI URL on fallback, or
`none` when no image task ran or it failed). -/
def build_story_contents (imageResults : Nat → Option String) :
    Nat → List GenPage → List PageContent
  | _, [] => []
  | i, p :: ps =>
    { page_text := p.pageText.getD "", page_image := imageResults i } ::
      build_story_contents imageResults (i + 1) ps

/-- The `Story` document persisted by `create_story` (story_service.py
lines 112-120): its `story_content` is exactly the pages built from
the generation capability's `storyContent` list — no truncation to
`max_pages` anywhere. -/
def create_story_persisted (generated : List GenPage)
    (imageResults : Nat → Option String) (newId : Nat)
    (title desc author : String) (userId maxPages : Nat) : StoryDoc :=
  { id := newId,
    story_title := title,
    story_description := desc,
    story_content := build_story_contents imageResults 0 generated,
    story_author := author,
    created_by := userId,
    max_pages := maxPages }

/-- The positional merge in
`StoryService.generate_feedback_for_assignment` (story_service.py
lines 281-285): `questions[i].user_answer = answers[i]` for every
`i < len(questions)`; surplus answers are dropped, surplus questions
untouched. -/
def merge_answers : List Question → List String → List Question
  | [], _ => []
  | q :: qs, [] => q :: qs
  | q :: qs, ans :: rest => { q with user_answer := some ans } :: merge_answers qs rest

/-- A concrete question-generation capability result. -/
def genFive : StoryDoc → List Question := fun _ =>
  [ { question := "q1", answer := "a1", user_answer := some "" },
    { question := "q2", answer := "a2", user_answer := some "" },
    { question := "q3", answer := "a3", user_answer := some "" },
    { question := "q4", answer := "a4", user_answer := some "" },
    { question := "q5", answer := "a5", user_answer := some "" } ]

/-- A concrete store: one story with id 1 owned by user 10, no
assignments yet. -/
def dbOneStory : DB :=
  { stories := [ { id := 1, story_title := "t", story_description := "d",
                   story_content := [ { page_text := "p1", page_image := none } ],
                   story_author := "au", created_by := 10, max_pages := 3 } ],
    assignments := [],
    nextId := 100,
    genCalls := 0 }

/-- The assignment produced by the first `create_assignment` call on
`dbOneStory` for the cross-owner requester 20. -/
def assignCross : AssignmentDoc :=
  { id := 100, sid := 1, uid := 20,
    questions := genFive { id := 1, story_title := "t", story_description := "d",
                           story_content := [ { page_text := "p1", page_image := none } ],
                           story_author := "au", created_by := 10, max_pages := 3 } }

/-- The store after that cross-owner insert. -/
def dbAfterCross : DB :=
  { stories := dbOneStory.stories,
    assignments := [assignCross],
    nextId := 101,
    genCalls := 1 }

/-- A generation-capability response of three pages, used against a
request bound of two. -/
def threePages : List GenPage :=
  [ { pageText := some "a" }, { pageText := some "b" }, { pageText := some "c" } ]

/-! ## Python string primitives

`generate_story_content` and `generate_questions` manipulate the raw
completion text with `str.split(sep)`, `str.strip()` and
`str.replace(old, new)`.  These are embedded over `List Char`
(`String.data`), with Python's exact semantics: `split` cuts at every
non-overlapping occurrence of a nonempty separator, scanning left to
right. -/

/-- Whether the pattern is a prefix of the list (Python's substring
match at one position). -/
def isPrefixL : List Char → List Char → Bool
  | [], _ => true
  | _ :: _, [] => false
  | a :: as, b :: bs => a == b && isPrefixL as bs

/-- Proposition `occursIn pat l`: the pattern occurs somewhere in `l`
(Python's `pat in s`). -/
def occursIn (pat l : List Char) : Prop := ∃ s t, l = s ++ pat ++ t

/-- Python `str.split(sep)` for the nonempty separator `p :: ps`,
written with explicit fuel so that it reduces by `rfl`; the wrapper
`splitOnSub` supplies `l.length` fuel, which suffices because every
step consumes at least one character. -/
def splitSubF (p : Char) (ps : List Char) : Nat → List Char → List (List Char)
  | _, [] => [[]]
  | 0, l => [l]
  | fuel + 1, c :: cs =>
    if isPrefixL (p :: ps) (c :: cs) then
      [] :: splitSubF p ps fuel (List.drop (ps.length + 1) (c :: cs))
    else
      match splitSubF p ps fuel cs with
      | [] => [[c]]
      | t :: ts => (c :: t) :: ts

/-- Python `l.split(sep)` over char lists (any occurrence of an empty
separator is rejected by Python; the code only splits on the nonempty
separators `"```json"`, `"```"`, `"\r\n"` and `"\n"`). -/
def splitOnSub (sep l : List Char) : List (List Char) :=
  match sep with
  | [] => [l]
  | p :: ps => splitSubF p ps l.length l

/-- Python `str.strip()`: drop whitespace from both ends. -/
def trimL (l : List Char) : List Char :=
  (((l.dropWhile Char.isWhitespace).reverse).dropWhile Char.isWhitespace).reverse

/-- Python `str.replace(pat, rep)`: rewrite every non-overlapping
occurrence, left to right. -/
def replaceL (pat rep l : List Char) : List Char :=
  List.intercalate rep (splitOnSub pat l)

/-- The backtick character. -/
def btick : Char := Char.ofNat 96

/-- The characters of `"```"`. -/
def fenceChars : List Char := [btick, btick, btick]

/-- The characters of `"```json"`. -/
def fenceJsonChars : List Char := fenceChars ++ [ 'j', 's', 'o', 'n' ]

/-- The markdown fence-stripping shared by `generate_story_content`
(story_graph.py lines 130-135) and `generate_questions`
(question_generator.py lines 54-58):

    if "```json" in s: s = s.split("```json")[1].split("```")[0].strip()
    elif "```" in s:   s = s.split("```")[1].split("```")[0].strip()

`1 < parts.length` is exactly Python's `sep in s` for a nonempty
separator. -/
def stripFencesL (l : List Char) : List Char :=
  let pj := splitOnSub fenceJsonChars l
  if 1 < pj.length then
    trimL ((splitOnSub fenceChars (pj.getD 1 [])).headD [])
  else
    let pb := splitOnSub fenceChars l
    if 1 < pb.length then
      trimL ((splitOnSub fenceChars (pb.getD 1 [])).headD [])
    else l

/-- Fence stripping over `String`. -/
def stripFences (s : String) : String := String.mk (stripFencesL s.data)

/-! ## Structured LLM output (`story_graph.py`, `question_generator.py`)

`json.loads` is an external library function; it enters the model as
a parameter `loads : String → Option Json` returning `none` exactly
when Python raises `json.JSONDecodeError`. -/

/-- A parsed JSON value (numbers as integers suffice for the payloads
the services inspect). -/
inductive Json where
  | null
  | bool (b : Bool)
  | num (n : Int)
  | str (s : String)
  | arr (items : List Json)
  | obj (fields : List (String × Json))

/-- Python `dict.get(key)` on a parsed JSON object (`none` on a
missing key or a non-object). -/
def Json.get? : Json → String → Option Json
  | .obj fields, key => (fields.find? (fun f => f.1 == key)).map (fun f => f.2)
  | _, _ => none

/-- Errors surfaced by the generation pipeline: transport/API errors
from the completion capability versus hard generation-output errors
raised by the service itself.  The constructors are distinct, which
is what makes the two failure kinds distinguishable to a caller. -/
inductive GenError where
  | apiError (msg : String)
  | parseError (msg : String)

/-- The parse-and-validate step of `generate_story_content`
(story_graph.py lines 126-148): strip markdown fences, `json.loads`,
then require a `storyContent` list; a `JSONDecodeError` or a missing
or non-list `storyContent` both raise the dedicated generation
error (the Python message wraps the inner error's text; the model
keeps a fixed message per failure point). -/
def generate_story_content_parse (loads : String → Option Json)
    (content : String) : Except GenError Json :=
  match loads (stripFences content) with
  | none => .error (.parseError "Failed to parse story JSON from GPT")
  | some storyJson =>
    match storyJson.get? "storyContent" with
    | some (.arr _) => .ok storyJson
    | _ => .error (.parseError "Invalid story structure: missing or invalid storyContent")

/-- Embedding of `generate_story_content` after the completion call: a transport
error from the capability is re-raised as an API error; a successful
response body goes through fence-stripping, parsing and validation. -/
def generate_story_content (loads : String → Option Json)
    (completion : Except String String) : Except GenError Json :=
  match completion with
  | .error e => .error (.apiError e)
  | .ok content => generate_story_content_parse loads content

/-- The sanitization in `generate_questions` (question_generator.py
line 52): `strip()`, then delete every `"\r\n"`, then every `"\n"`. -/
def sanitizeQuestionText (l : List Char) : List Char :=
  replaceL [ '\n' ] [] (replaceL [ '\r', '\n' ] [] (trimL l))

/-- The sanitized-and-defenced text handed to `json.loads` by
`generate_questions`. -/
def sanitized_questions (raw : String) : String :=
  String.mk (stripFencesL (sanitizeQuestionText raw.data))

/-- Embedding of `generate_questions` (question_generator.py lines 41-65): the
parsed JSON payload is returned as-is — no count-of-5 or
per-entry validation; only a `JSONDecodeError` is a hard error. -/
def generate_questions (loads : String → Option Json) (raw : String) :
    Except GenError Json :=
  match loads (sanitized_questions raw) with
  | some questions => .ok questions
  | none => .error (.parseError "Failed to parse questions")

/-- Embedding of `questions_data.get("questions", [])` in
`StoryService.create_assignment` (story_service.py line 237). -/
def questionsData (j : Json) : Json := (j.get? "questions").getD (.arr [])

/-- A syntactically valid single-question payload. -/
def oneQuestionEntry : Json :=
  .obj [("question", .str "q"), ("answer", .str "a"), ("userAnswer", .str "")]

/-- The parse of a response containing one question instead of five. -/
def oneQuestionJson : Json := .obj [("questions", .arr [oneQuestionEntry])]

/-- The raw completion text whose JSON parse is `oneQuestionJson`. -/
def oneQuestionRaw : String :=
  "\x7b\"questions\": [\x7b\"question\": \"q\", \"answer\": \"a\", \"userAnswer\": \"\"\x7d]\x7d"

/-- A model of `json.loads` restricted to the single concrete document the
counterexample feeds it. -/
def loadsOneQuestion : String → Option Json := fun s =>
  if s = oneQuestionRaw then some oneQuestionJson else none

/-- A fence-free, trimmed story payload with a `storyContent` list. -/
def storyPayload : String := "\x7b\"storyContent\": []\x7d"

/-- A model of `json.loads` restricted to `storyPayload`. -/
def loadsStoryPayload : String → Option Json := fun s =>
  if s = storyPayload then some (.obj [("storyContent", .arr [])]) else none

theorem levenshtein_self : ∀ l : List String, levenshtein l l = 0
  | [] => by rw [levenshtein]; rfl
  | x :: xs => by
    rw [levenshtein]
    simp [levenshtein_self xs]

theorem wer_nonneg (reference hyp : String) : 0 ≤ wer reference hyp := by
  unfold wer
  positivity

theorem wer_self (s : String) : wer s s = 0 := by
  unfold wer
  rw [levenshtein_self]
  simp

/-- Claim C1: for every stored reference text and every enhanced
transcript, `process_audio` computes
`score = max(0, 100 * (1 - error_rate))` over the word error rate, so
`0 ≤ score ≤ 100` for every input (the `max` clamps error rates above
1.0 from heavy insertions), and `score = 100` whenever the enhanced
transcript equals the reference text. -/
theorem process_audio_score_bounds (wholeStory enhancedTranscript : String) :
    process_audio_score wholeStory enhancedTranscript =
      max 0 (100 * (1 - wer wholeStory enhancedTranscript)) ∧
    0 ≤ process_audio_score wholeStory enhancedTranscript ∧
    process_audio_score wholeStory enhancedTranscript ≤ 100 ∧
    (enhancedTranscript = wholeStory →
      process_audio_score wholeStory enhancedTranscript = 100) := by
  refine ⟨by unfold process_audio_score; ring_nf, le_max_left _ _, ?_, ?_⟩
  · apply max_le (by norm_num)
    have h := wer_nonneg wholeStory enhancedTranscript
    nlinarith
  · intro h
    subst h
    unfold process_audio_score
    rw [wer_self]
    norm_num

/-- Witness for C1: a concrete perfect reading scores exactly 100. -/
theorem process_audio_score_bounds_witness :
    process_audio_score "a b" "a b" = 100 :=
  (process_audio_score_bounds "a b" "a b").2.2.2 rfl

theorem mem_filter_loop (p : Document → Bool) (topK : Nat) :
    ∀ (l acc : List Document) (x : Document),
      x ∈ filter_loop p topK acc l → x ∈ acc ∨ p x = true
  | [], acc, x => fun h => Or.inl h
  | d :: ds, acc, x => by
    intro h
    rw [filter_loop] at h
    by_cases hp : p d
    · simp only [hp, if_true] at h
      by_cases hk : topK ≤ acc.length + 1
      · simp only [hk, if_true] at h
        rcases List.mem_append.1 h with h1 | h1
        · exact Or.inl h1
        · simp at h1; subst h1; exact Or.inr hp
      · simp only [hk, if_false] at h
        rcases mem_filter_loop p topK ds (acc ++ [d]) x h with h1 | h1
        · rcases List.mem_append.1 h1 with h2 | h2
          · exact Or.inl h2
          · simp at h2; subst h2; exact Or.inr hp
        · exact Or.inr h1
    · simp only [hp, if_false] at h
      exact mem_filter_loop p topK ds acc x h

/-- Claim C2: for every query, owner, age, `top_k` and flag
combination, `retrieve_from_user_library` never returns a document
whose stored `user_id` metadata differs from the requesting owner,
whatever the vector index returns. -/
theorem retrieve_from_user_library_owner_isolation
    (index : String → Nat → List Document) (query userId : String)
    (childAge : Int) (topK : Nat) (includeBooks includeStories : Bool)
    (d : Document)
    (hd : d ∈ (retrieve_from_user_library index query userId childAge
        topK includeBooks includeStories).1) :
    d.metadata.user_id = some userId := by
  unfold retrieve_from_user_library at hd
  rcases mem_filter_loop _ _ _ _ _ hd with h | h
  · simp at h
  · unfold keep_doc at h
    simp only [Bool.and_eq_true, beq_iff_eq] at h
    exact h.1.1.1

/-- Witness for C2 at a concrete two-owner index. -/
theorem retrieve_from_user_library_owner_isolation_witness :
    bookDocU1.metadata.user_id = some "u1" :=
  retrieve_from_user_library_owner_isolation twoOwnerIndex "q" "u1" 5 5
    true true bookDocU1 (by decide)

theorem filter_loop_all_false (p : Document → Bool) (topK : Nat) :
    ∀ (l acc : List Document), (∀ d ∈ l, p d = false) →
      filter_loop p topK acc l = acc
  | [], acc => fun _ => rfl
  | d :: ds, acc => by
    intro h
    rw [filter_loop]
    have hd : p d = false := h d (List.mem_cons_self d ds)
    simp only [hd, if_false]
    exact filter_loop_all_false p topK ds acc
      (fun x hx => h x (List.mem_cons_of_mem d hx))

/-- Counterexample to claim C8: with `include_books = false` and
`include_stories = false`, `retrieve_from_user_library` still issues
its `similarity_search` call (which embeds the query) — the call
count is 1, not 0.  The skip lives in the caller, not here. -/
theorem retrieve_from_user_library_still_searches :
    (retrieve_from_user_library twoOwnerIndex "q" "u1" 5 5 false false).2 = 1 ∧
    ¬ (retrieve_from_user_library twoOwnerIndex "q" "u1" 5 5 false false).2 = 0 := by
  constructor
  · rfl
  · intro h
    simp [retrieve_from_user_library] at h

/-- Claim C8 (amended): the story pipeline's `retrieve_context` node
skips retrieval entirely — no similarity-search or embedding call —
and returns empty context when both history flags are false, while
`retrieve_from_user_library` itself always issues the search but
returns an empty sequence whenever every indexed document is a book
or story chunk. -/
theorem retrieve_context_skips_when_disabled
    (index : String → Nat → List Document)
    (storyTitle storyDescription userId query : String) (childAge : Int)
    (topK : Nat)
    (htypes : ∀ d ∈ index query (topK * 3),
      d.metadata.type = some "book" ∨ d.metadata.type = some "story") :
    retrieve_context index storyTitle storyDescription userId childAge
        false false = ("", 0) ∧
    (retrieve_from_user_library index query userId childAge topK
        false false).1 = [] := by
  constructor
  · rfl
  · unfold retrieve_from_user_library
    apply filter_loop_all_false
    intro d hd
    unfold keep_doc
    rcases htypes d hd with h | h <;> simp [h]

/-- Witness for the amended C8 at the concrete two-owner index. -/
theorem retrieve_context_skips_when_disabled_witness :
    retrieve_context twoOwnerIndex "t" "d" "u1" 5 false false = ("", 0) ∧
    (retrieve_from_user_library twoOwnerIndex "q" "u1" 5 5 false false).1 = [] :=
  retrieve_context_skips_when_disabled twoOwnerIndex "t" "d" "u1" "q" 5 5
    (by decide)

theorem find?_append_none {α : Type} (p : α → Bool) :
    ∀ (l₁ l₂ : List α), l₁.find? p = none →
      (l₁ ++ l₂).find? p = l₂.find? p
  | [], _ => fun _ => rfl
  | a :: l₁, l₂ => by
    intro h
    by_cases hpa : p a
    · simp [List.find?, hpa] at h
    · simp only [List.cons_append, List.find?, hpa] at h ⊢
      exact find?_append_none p l₁ l₂ h

/-- Counterexample to claim C3: `create_assignment` performs no
ownership check.  In `dbOneStory` the story with id 1 is created by
user 10, yet a call on behalf of user 20 succeeds — returning a new
assignment rather than an authorization error — and invokes the
question-generation capability (`genCalls` goes from 0 to 1). -/
theorem create_assignment_cross_owner_succeeds :
    (storyGet dbOneStory 1).map (fun s => s.created_by) = some 10 ∧
    create_assignment genFive dbOneStory 1 20 = .ok (assignCross, dbAfterCross) ∧
    dbAfterCross.genCalls = dbOneStory.genCalls + 1 :=
  ⟨rfl, rfl, rfl⟩

/-- Claim C3 (amended): `get_story` fails with a `Forbidden` error
whenever the story's creator differs from the requesting user, but
`create_assignment` has no ownership check at all: with no existing
assignment it succeeds cross-owner, invoking the question-generation
capability (`genCalls` is bumped) and persisting an assignment owned
by the requester. -/
theorem get_story_forbidden_create_assignment_unchecked
    (db : DB) (storyId userId : Nat) (s : StoryDoc)
    (gen : StoryDoc → List Question)
    (hs : storyGet db storyId = some s) (hne : s.created_by ≠ userId)
    (hnoassign : assignmentFindOne db storyId userId = none) :
    get_story db storyId userId =
      .error (.forbidden "Unauthorized access to this story") ∧
    create_assignment gen db storyId userId =
      .ok (newAssignment db storyId userId (gen s),
           insertAssignment db (newAssignment db storyId userId (gen s))) ∧
    (insertAssignment db (newAssignment db storyId userId (gen s))).genCalls =
      db.genCalls + 1 := by
  refine ⟨?_, ?_, rfl⟩
  · unfold get_story
    rw [hs]
    simp [hne]
  · unfold create_assignment
    rw [hnoassign, hs]

/-- Witness for the amended C3 at the concrete one-story store. -/
theorem get_story_forbidden_create_assignment_unchecked_witness :
    get_story dbOneStory 1 20 =
      .error (.forbidden "Unauthorized access to this story") ∧
    create_assignment genFive dbOneStory 1 20 =
      .ok (newAssignment dbOneStory 1 20 (genFive
             { id := 1, story_title := "t", story_description := "d",
               story_content := [ { page_text := "p1", page_image := none } ],
               story_author := "au", created_by := 10, max_pages := 3 }),
           insertAssignment dbOneStory (newAssignment dbOneStory 1 20 (genFive
             { id := 1, story_title := "t", story_description := "d",
               story_content := [ { page_text := "p1", page_image := none } ],
               story_author := "au", created_by := 10, max_pages := 3 }))) ∧
    (insertAssignment dbOneStory (newAssignment dbOneStory 1 20 (genFive
             { id := 1, story_title := "t", story_description := "d",
               story_content := [ { page_text := "p1", page_image := none } ],
               story_author := "au", created_by := 10, max_pages := 3 }))).genCalls =
      dbOneStory.genCalls + 1 :=
  get_story_forbidden_create_assignment_unchecked dbOneStory 1 20 _ genFive
    rfl (by decide) rfl

/-- Claim C4: `create_assignment` is idempotent per
`(story_id, user_id)`: if a call returns assignment `a` and store
`db1`, calling again on `db1` returns the very same assignment (same
id, same questions) and leaves the store — including the
generation-call counter — untouched. -/
theorem create_assignment_idem (gen : StoryDoc → List Question) (db : DB)
    (storyId userId : Nat) (a : AssignmentDoc) (db1 : DB)
    (h : create_assignment gen db storyId userId = .ok (a, db1)) :
    create_assignment gen db1 storyId userId = .ok (a, db1) := by
  unfold create_assignment at h ⊢
  cases hfind : assignmentFindOne db storyId userId with
  | some e =>
    rw [hfind] at h
    injection h with h2
    obtain ⟨rfl, rfl⟩ := Prod.mk.inj h2
    rw [hfind]
  | none =>
    rw [hfind] at h
    cases hstory : storyGet db storyId with
    | none => rw [hstory] at h; exact absurd h (by simp)
    | some st =>
      rw [hstory] at h
      injection h with h2
      obtain ⟨ha, hdb⟩ := Prod.mk.inj h2
      subst ha
      subst hdb
      have hfound : assignmentFindOne
          (insertAssignment db (newAssignment db storyId userId (gen st)))
          storyId userId = some (newAssignment db storyId userId (gen st)) := by
        unfold assignmentFindOne at hfind ⊢
        unfold insertAssignment
        simp only []
        rw [find?_append_none _ _ _ hfind]
        simp [List.find?, newAssignment]
      rw [hfound]

/-- Witness for C4: the second cross-owner call on the concrete
store returns the same assignment and the unchanged store. -/
theorem create_assignment_idem_witness :
    create_assignment genFive dbAfterCross 1 20 = .ok (assignCross, dbAfterCross) :=
  create_assignment_idem genFive dbOneStory 1 20 assignCross dbAfterCross rfl

theorem build_story_contents_length (f : Nat → Option String) :
    ∀ (i : Nat) (ps : List GenPage),
      (build_story_contents f i ps).length = ps.length
  | _, [] => rfl
  | i, _ :: ps => by
    rw [build_story_contents]
    simp [build_story_contents_length f (i + 1) ps]

theorem build_story_contents_texts (f : Nat → Option String) :
    ∀ (i : Nat) (ps : List GenPage),
      (build_story_contents f i ps).map (fun pc => pc.page_text) =
        ps.map (fun p => p.pageText.getD "")
  | _, [] => rfl
  | i, _ :: ps => by
    rw [build_story_contents]
    simp [build_story_contents_texts f (i + 1) ps]

/-- Counterexample to claim C5: when the generation capability
returns three pages against a requested `max_pages = 2`, the
persisted story keeps all three pages — `len(pages) <= max_pages`
is violated. -/
theorem create_story_exceeds_max_pages :
    (create_story_persisted threePages (fun _ => none) 0 "t" "d" "au" 10 2).story_content.length = 3 ∧
    (create_story_persisted threePages (fun _ => none) 0 "t" "d" "au" 10 2).max_pages = 2 ∧
    ¬ ((create_story_persisted threePages (fun _ => none) 0 "t" "d" "au" 10 2).story_content.length ≤
        (create_story_persisted threePages (fun _ => none) 0 "t" "d" "au" 10 2).max_pages) := by
  refine ⟨rfl, rfl, ?_⟩
  decide

/-- Claim C5 (amended): the persisted story's pages are exactly the
pages returned by the generation capability, in generation order;
`max_pages` only parameterizes the prompt, so `len(pages) <=
max_pages` holds exactly when the capability returns at most
`max_pages` pages. -/
theorem create_story_pages_mirror_generation (generated : List GenPage)
    (imageResults : Nat → Option String) (newId : Nat)
    (title desc author : String) (userId maxPages : Nat) :
    (create_story_persisted generated imageResults newId title desc author
        userId maxPages).story_content.length = generated.length ∧
    (create_story_persisted generated imageResults newId title desc author
        userId maxPages).story_content.map (fun pc => pc.page_text) =
      generated.map (fun p => p.pageText.getD "") ∧
    (generated.length ≤ maxPages →
      (create_story_persisted generated imageResults newId title desc author
          userId maxPages).story_content.length ≤ maxPages) := by
  refine ⟨?_, ?_, ?_⟩
  · exact build_story_contents_length imageResults 0 generated
  · exact build_story_contents_texts imageResults 0 generated
  · intro h
    exact le_trans (le_of_eq (build_story_contents_length imageResults 0 generated)) h

/-- Witness for the amended C5 with a compliant generation result. -/
theorem create_story_pages_mirror_generation_witness :
    (create_story_persisted threePages (fun _ => none) 0 "t" "d" "au"
        10 5).story_content.length ≤ 5 :=
  (create_story_pages_mirror_generation threePages (fun _ => none) 0 "t" "d"
      "au" 10 5).2.2 (by decide)

/-- Claim C9: with `include_image = true` an illustration task is
created for exactly the page positions `i` with `i % 3 ≠ 1`; with
`include_image = false` no image-capability call is issued for any
page. -/
theorem image_task_indices_spec (pageCount i : Nat) :
    (i ∈ image_task_indices true pageCount ↔ i < pageCount ∧ i % 3 ≠ 1) ∧
    image_task_indices false pageCount = [] := by
  constructor
  · simp only [image_task_indices, if_true, List.mem_filter, List.mem_range,
      Bool.or_eq_true, beq_iff_eq]
    constructor
    · rintro ⟨h1, h2⟩
      exact ⟨h1, by omega⟩
    · rintro ⟨h1, h2⟩
      exact ⟨h1, by omega⟩
  · rfl

/-- Witness for C9: page 2 of a three-page story gets an
illustration task. -/
theorem image_task_indices_spec_witness :
    2 ∈ image_task_indices true 3 :=
  (image_task_indices_spec 3 2).1.mpr (by omega)

theorem merge_answers_length :
    ∀ (qs : List Question) (answers : List String),
      (merge_answers qs answers).length = qs.length
  | [], _ => rfl
  | _ :: _, [] => rfl
  | q :: qs, ans :: rest => by
    rw [merge_answers]
    simp [merge_answers_length qs rest]

theorem merge_answers_get_lt :
    ∀ (qs : List Question) (answers : List String) (i : Nat)
      (q : Question) (ans : String),
      qs[i]? = some q → answers[i]? = some ans →
      (merge_answers qs answers)[i]? = some { q with user_answer := some ans }
  | [], _, i, _, _ => by intro h _; simp at h
  | _ :: _, [], i, _, _ => by intro _ h; simp at h
  | q0 :: qs, ans0 :: rest, 0, q, ans => by
    intro h1 h2
    simp only [List.getElem?_cons_zero, Option.some.injEq] at h1 h2
    subst h1
    subst h2
    simp [merge_answers]
  | q0 :: qs, ans0 :: rest, i + 1, q, ans => by
    intro h1 h2
    simp only [List.getElem?_cons_succ] at h1 h2
    rw [merge_answers]
    simp only [List.getElem?_cons_succ]
    exact merge_answers_get_lt qs rest i q ans h1 h2

theorem merge_answers_get_ge :
    ∀ (qs : List Question) (answers : List String) (i : Nat) (q : Question),
      qs[i]? = some q → answers.length ≤ i →
      (merge_answers qs answers)[i]? = some q
  | [], _, i, _ => by intro h _; simp at h
  | _ :: _, [], i, _ => by intro h _; rw [merge_answers]; exact h
  | q0 :: qs, ans0 :: rest, 0, q => by
    intro _ h2
    simp at h2
  | q0 :: qs, ans0 :: rest, i + 1, q => by
    intro h1 h2
    simp only [List.getElem?_cons_succ] at h1
    rw [merge_answers]
    simp only [List.getElem?_cons_succ]
    exact merge_answers_get_ge qs rest i q h1 (by simpa using Nat.le_of_succ_le_succ h2)

/-- Claim C10: `generate_feedback_for_assignment` merges submitted
answers into the stored questions positionally — answer `i` lands on
question `i` exactly when `i` is below the question count, surplus
answers are silently dropped, questions beyond the answer count are
left untouched (keeping their stored empty user answer), and the
merge is total: no count-mismatch error exists at the service level. -/
theorem merge_answers_positional (questions : List Question)
    (answers : List String) :
    (merge_answers questions answers).length = questions.length ∧
    (∀ (i : Nat) (q : Question) (ans : String),
      questions[i]? = some q → answers[i]? = some ans →
      (merge_answers questions answers)[i]? =
        some { q with user_answer := some ans }) ∧
    (∀ (i : Nat) (q : Question),
      questions[i]? = some q → answers.length ≤ i →
      (merge_answers questions answers)[i]? = some q) :=
  ⟨merge_answers_length questions answers,
   fun i q ans h1 h2 => merge_answers_get_lt questions answers i q ans h1 h2,
   fun i q h1 h2 => merge_answers_get_ge questions answers i q h1 h2⟩

/-- Witness for C10: with two stored questions and one submitted
answer, the answer lands on question 0 and question 1 keeps its
stored empty user answer. -/
theorem merge_answers_positional_witness :
    (merge_answers
        [ { question := "q1", answer := "a1", user_answer := some "" },
          { question := "q2", answer := "a2", user_answer := some "" } ]
        ["x"])[0]? =
      some { question := "q1", answer := "a1", user_answer := some "x" } :=
  (merge_answers_positional
      [ { question := "q1", answer := "a1", user_answer := some "" },
        { question := "q2", answer := "a2", user_answer := some "" } ]
      ["x"]).2.1 0
    { question := "q1", answer := "a1", user_answer := some "" } "x" rfl rfl

theorem drop_append_le {α : Type} :
    ∀ (n : Nat) (a e : List α), n ≤ a.length →
      (a ++ e).drop n = a.drop n ++ e
  | 0, _, _ => fun _ => rfl
  | n + 1, [], _ => by intro h; simp at h
  | n + 1, _ :: a, e => fun h =>
    drop_append_le n a e (Nat.le_of_succ_le_succ h)

theorem isPrefixL_iff : ∀ (a b : List Char),
    isPrefixL a b = true ↔ ∃ t, b = a ++ t
  | [], b => by simp [isPrefixL]
  | _ :: _, [] => by
    simp only [isPrefixL, Bool.false_eq_true, false_iff]
    rintro ⟨t, ht⟩
    simp at ht
  | a :: as, b :: bs => by
    simp only [isPrefixL, Bool.and_eq_true, beq_iff_eq, isPrefixL_iff as bs,
      List.cons_append, List.cons.injEq]
    constructor
    · rintro ⟨rfl, t, rfl⟩
      exact ⟨t, rfl, rfl⟩
    · rintro ⟨t, rfl, rfl⟩
      exact ⟨rfl, t, rfl⟩

theorem not_occursIn_of (p : Char) (ps a e : List Char)
    (h1 : p ∉ a) (h2 : e.length ≤ ps.length) :
    ¬ occursIn (p :: ps) (a ++ e) := by
  rintro ⟨s, t, heq⟩
  rcases Nat.lt_or_ge s.length a.length with hs | hs
  · have hdrop1 : (a ++ e).drop s.length = a.drop s.length ++ e :=
      drop_append_le s.length a e (Nat.le_of_lt hs)
    have hdrop2 : (a ++ e).drop s.length = (p :: ps) ++ t := by
      rw [heq, List.append_assoc, List.drop_left]
    cases hda : a.drop s.length with
    | nil =>
      have : (a.drop s.length).length = a.length - s.length := List.length_drop ..
      rw [hda] at this
      simp at this
      omega
    | cons x xs =>
      rw [hdrop1, hda] at hdrop2
      have hx : x = p := by
        have := congrArg (fun l => l.headD p) hdrop2
        simpa using this
      apply h1
      have hmem : p ∈ a.drop s.length := by
        rw [hda, hx]
        exact List.mem_cons_self _ _
      exact List.mem_of_mem_drop hmem
  · have hlen := congrArg List.length heq
    simp only [List.length_append, List.length_cons] at hlen
    omega

theorem splitSubF_nil (p : Char) (ps : List Char) (fuel : Nat) :
    splitSubF p ps fuel [] = [[]] := by
  cases fuel <;> rfl

theorem splitSubF_mono (p : Char) (ps : List Char) :
    ∀ (fuel1 : Nat) (l : List Char) (fuel2 : Nat),
      l.length ≤ fuel1 → l.length ≤ fuel2 →
      splitSubF p ps fuel1 l = splitSubF p ps fuel2 l
  | 0, l, fuel2 => by
    intro h1 _
    have : l = [] := List.eq_nil_of_length_eq_zero (Nat.le_zero.1 h1)
    subst this
    rw [splitSubF_nil, splitSubF_nil]
  | fuel1 + 1, [], fuel2 => by
    intro _ _
    rw [splitSubF_nil, splitSubF_nil]
  | fuel1 + 1, c :: cs, fuel2 => by
    intro h1 h2
    cases fuel2 with
    | zero => simp at h2
    | succ fuel2 =>
      rw [splitSubF, splitSubF]
      by_cases hpre : isPrefixL (p :: ps) (c :: cs)
      · simp only [hpre, if_true]
        have hd : (List.drop (ps.length + 1) (c :: cs)).length ≤ cs.length := by
          simp [List.length_drop]
        rw [splitSubF_mono p ps fuel1 _ fuel2
          (le_trans hd (by simpa using h1)) (le_trans hd (by simpa using h2))]
      · simp only [hpre, Bool.false_eq_true, if_false]
        rw [splitSubF_mono p ps fuel1 cs fuel2
          (by simpa using h1) (by simpa using h2)]

theorem splitSubF_of_not_occurs (p : Char) (ps : List Char) :
    ∀ (fuel : Nat) (l : List Char), l.length ≤ fuel →
      ¬ occursIn (p :: ps) l → splitSubF p ps fuel l = [l]
  | 0, l => by
    intro h1 _
    have : l = [] := List.eq_nil_of_length_eq_zero (Nat.le_zero.1 h1)
    subst this
    rw [splitSubF_nil]
  | fuel + 1, [] => by
    intro _ _
    rw [splitSubF_nil]
  | fuel + 1, c :: cs => by
    intro h1 h2
    rw [splitSubF]
    have hpre : isPrefixL (p :: ps) (c :: cs) = false := by
      rw [Bool.eq_false_iff]
      intro hcontra
      obtain ⟨t, ht⟩ := (isPrefixL_iff _ _).1 hcontra
      exact h2 ⟨[], t, by simpa using ht⟩
    simp only [hpre, Bool.false_eq_true, if_false]
    rw [splitSubF_of_not_occurs p ps fuel cs (by simpa using h1)
      (fun hocc => by
        obtain ⟨s, t, hst⟩ := hocc
        exact h2 ⟨c :: s, t, by simp [hst]⟩)]

theorem splitOnSub_of_not_occurs (p : Char) (ps l : List Char)
    (h : ¬ occursIn (p :: ps) l) : splitOnSub (p :: ps) l = [l] :=
  splitSubF_of_not_occurs p ps l.length l (Nat.le_refl _) h

theorem splitSubF_append (p : Char) (ps : List Char) :
    ∀ (a : List Char) (fuel : Nat) (b : List Char),
      p ∉ a → (a ++ (p :: ps) ++ b).length ≤ fuel →
      splitSubF p ps fuel (a ++ (p :: ps) ++ b) =
        a :: splitSubF p ps b.length b
  | [], fuel, b => by
    intro _ hfuel
    simp only [List.nil_append] at hfuel ⊢
    cases fuel with
    | zero => simp at hfuel
    | succ fuel =>
      rw [show (p :: ps) ++ b = p :: (ps ++ b) from rfl, splitSubF]
      have hpre : isPrefixL (p :: ps) (p :: (ps ++ b)) = true :=
        (isPrefixL_iff _ _).2 ⟨b, by simp⟩
      simp only [hpre, if_true, List.drop_succ_cons, List.drop_left]
      rw [splitSubF_mono p ps fuel b b.length
        (by simp [List.length_append, List.length_cons] at hfuel; omega)
        (Nat.le_refl _)]
  | c :: a, fuel, b => by
    intro ha hfuel
    cases fuel with
    | zero => simp at hfuel
    | succ fuel =>
      have hpc : p ≠ c := fun hpc => ha (by rw [hpc]; exact List.mem_cons_self _ _)
      rw [show (c :: a) ++ (p :: ps) ++ b = c :: (a ++ (p :: ps) ++ b) by simp,
        splitSubF]
      have hpre : isPrefixL (p :: ps) (c :: (a ++ (p :: ps) ++ b)) = false := by
        simp [isPrefixL, hpc]
      simp only [hpre, Bool.false_eq_true, if_false]
      rw [splitSubF_append p ps a fuel b
        (fun hmem => ha (List.mem_cons_of_mem _ hmem))
        (by simp [List.length_append, List.length_cons] at hfuel ⊢; omega)]

theorem splitOnSub_append (p : Char) (ps a b : List Char) (h : p ∉ a) :
    splitOnSub (p :: ps) (a ++ (p :: ps) ++ b) =
      a :: splitOnSub (p :: ps) b :=
  splitSubF_append p ps a (a ++ (p :: ps) ++ b).length b h (Nat.le_refl _)

theorem trimL_cons_newline (m : List Char) : trimL ('\n' :: m) = trimL m := by
  unfold trimL
  rw [List.dropWhile_cons_of_pos (by decide)]

theorem trimL_append_newline (m : List Char) :
    trimL (m ++ [ '\n' ]) = trimL m := by
  unfold trimL
  rw [List.dropWhile_append]
  cases hd : List.dropWhile Char.isWhitespace m with
  | nil => simp [hd, List.dropWhile]
  | cons x xs =>
    simp only [hd, List.isEmpty_cons, Bool.false_eq_true, if_false]
    rw [List.reverse_append, List.reverse_singleton, List.singleton_append,
      List.dropWhile_cons_of_pos (by decide)]

theorem stripFencesL_fenced (pd : List Char)
    (hb : btick ∉ pd) (ht : trimL pd = pd) :
    stripFencesL (fenceJsonChars ++ '\n' :: pd ++ '\n' :: fenceChars) = pd := by
  have hbA : btick ∉ '\n' :: pd ++ [ '\n' ] := by
    intro hcontra
    rcases List.mem_cons.1 hcontra with h | h
    · exact absurd h (by decide)
    · rcases List.mem_append.1 h with h | h
      · exact hb h
      · exact absurd (List.mem_singleton.1 h) (by decide)
  have hshape : fenceJsonChars ++ '\n' :: pd ++ '\n' :: fenceChars =
      fenceJsonChars ++ (('\n' :: pd ++ [ '\n' ]) ++ fenceChars) := by simp
  have h1 : splitOnSub fenceJsonChars
      (fenceJsonChars ++ '\n' :: pd ++ '\n' :: fenceChars) =
      [] :: splitOnSub fenceJsonChars (('\n' :: pd ++ [ '\n' ]) ++ fenceChars) := by
    rw [hshape]
    have := splitOnSub_append btick [btick, btick, 'j', 's', 'o', 'n'] []
      (('\n' :: pd ++ [ '\n' ]) ++ fenceChars) (by simp)
    simpa using this
  have h2 : splitOnSub fenceJsonChars (('\n' :: pd ++ [ '\n' ]) ++ fenceChars) =
      [('\n' :: pd ++ [ '\n' ]) ++ fenceChars] := by
    apply splitOnSub_of_not_occurs
    exact not_occursIn_of btick [btick, btick, 'j', 's', 'o', 'n']
      ('\n' :: pd ++ [ '\n' ]) fenceChars hbA (by decide)
  have h3 : splitOnSub fenceChars
      ((('\n' :: pd ++ [ '\n' ]) ++ fenceChars)) =
      ('\n' :: pd ++ [ '\n' ]) :: splitOnSub fenceChars [] := by
    have := splitOnSub_append btick [btick, btick] ('\n' :: pd ++ [ '\n' ]) [] hbA
    simpa using this
  simp only [stripFencesL]
  rw [h1, h2]
  simp only [List.length_cons, List.length_nil, List.getD_cons_succ,
    List.getD_cons_zero]
  rw [if_pos (by omega)]
  rw [h3]
  rw [show splitOnSub fenceChars ([] : List Char) = [[]] from rfl]
  simp only [List.headD_cons]
  rw [List.cons_append, trimL_cons_newline, trimL_append_newline, ht]

theorem stripFencesL_nofence (pd : List Char) (hb : btick ∉ pd) :
    stripFencesL pd = pd := by
  have hj : splitOnSub fenceJsonChars pd = [pd] := by
    apply splitOnSub_of_not_occurs
    have := not_occursIn_of btick [btick, btick, 'j', 's', 'o', 'n'] pd [] hb
      (by decide)
    simpa using this
  have hf : splitOnSub fenceChars pd = [pd] := by
    apply splitOnSub_of_not_occurs
    have := not_occursIn_of btick [btick, btick] pd [] hb (by decide)
    simpa using this
  unfold stripFencesL
  rw [hj, hf]
  simp

theorem string_mk_data (s : String) : String.mk s.data = s := rfl

theorem stripFences_fenced (p : String)
    (hb : btick ∉ p.data) (ht : trimL p.data = p.data) :
    stripFences ("```json\n" ++ p ++ "\n```") = p := by
  have hd1 : ("```json\n".data : List Char) = fenceJsonChars ++ [ '\n' ] := by decide
  have hd2 : ("\n```".data : List Char) = '\n' :: fenceChars := by decide
  unfold stripFences
  rw [String.data_append, String.data_append, hd1, hd2,
    show (fenceJsonChars ++ [ '\n' ]) ++ p.data ++ '\n' :: fenceChars =
      fenceJsonChars ++ '\n' :: p.data ++ '\n' :: fenceChars from by simp,
    stripFencesL_fenced p.data hb ht, string_mk_data]

theorem stripFences_nofence (p : String) (hb : btick ∉ p.data) :
    stripFences p = p := by
  unfold stripFences
  rw [stripFencesL_nofence p.data hb, string_mk_data]

/-- Claim C7: a completion response wrapped in a markdown
```` ```json ```` fence parses to the same structured story as the
equivalent unfenced payload; an unfenced response that is not valid
JSON, or that lacks a `storyContent` list, is surfaced as a hard
generation error whose constructor is distinct from the transport
error — never an `apiError` and never a silent recovery.  (The
payload hypotheses: it contains no backtick and is already
trimmed, as any JSON document payload is.) -/
theorem generate_story_content_fence_transparent
    (loads : String → Option Json) (p : String)
    (hb : btick ∉ p.data) (ht : trimL p.data = p.data) :
    generate_story_content loads (.ok ("```json\n" ++ p ++ "\n```")) =
      generate_story_content loads (.ok p) ∧
    (loads p = none →
      generate_story_content loads (.ok p) =
        .error (.parseError "Failed to parse story JSON from GPT")) ∧
    (∀ j, loads p = some j →
      (∀ items, j.get? "storyContent" ≠ some (.arr items)) →
      generate_story_content loads (.ok p) =
        .error (.parseError
          "Invalid story structure: missing or invalid storyContent")) ∧
    (∀ msg, generate_story_content loads (.ok p) ≠ .error (.apiError msg)) := by
  have hsf := stripFences_fenced p hb ht
  have hsn := stripFences_nofence p hb
  refine ⟨?_, ?_, ?_, ?_⟩
  · show generate_story_content_parse loads _ =
      generate_story_content_parse loads p
    unfold generate_story_content_parse
    rw [hsf, hsn]
  · intro hnone
    show generate_story_content_parse loads p = _
    unfold generate_story_content_parse
    rw [hsn, hnone]
  · intro j hj hnot
    show generate_story_content_parse loads p = _
    unfold generate_story_content_parse
    rw [hsn, hj]
    cases hg : j.get? "storyContent" with
    | none => simp [hg]
    | some v =>
      cases v with
      | arr items => exact absurd hg (hnot items)
      | null => simp [hg]
      | bool b => simp [hg]
      | num n => simp [hg]
      | str s => simp [hg]
      | obj fields => simp [hg]
  · intro msg h
    rw [show generate_story_content loads (.ok p) =
      generate_story_content_parse loads p from rfl] at h
    unfold generate_story_content_parse at h
    rw [hsn] at h
    cases hl : loads p with
    | none => rw [hl] at h; simp at h
    | some j =>
      rw [hl] at h
      cases hg : j.get? "storyContent" with
      | none => simp [hg] at h
      | some v => cases v <;> simp [hg] at h

/-- Witness for C7: the fenced and unfenced forms of a concrete
`storyContent` payload parse identically. -/
theorem generate_story_content_fence_transparent_witness :
    generate_story_content loadsStoryPayload
        (.ok ("```json\n" ++ storyPayload ++ "\n```")) =
      generate_story_content loadsStoryPayload (.ok storyPayload) :=
  (generate_story_content_fence_transparent loadsStoryPayload storyPayload
    (by decide) (by decide)).1

/-- Counterexample to claim C6: a capability response parsing to a
single question is returned successfully by `generate_questions` —
no hard error, no padding to 5; `create_assignment` would store that
one-element list as-is. -/
theorem generate_questions_accepts_one_question :
    generate_questions loadsOneQuestion oneQuestionRaw = .ok oneQuestionJson ∧
    questionsData oneQuestionJson = .arr [oneQuestionEntry] ∧
    ¬ (([oneQuestionEntry] : List Json).length = 5) := by
  refine ⟨rfl, rfl, by decide⟩

/-- Claim C6 (amended): `generate_questions` returns whatever JSON
payload the sanitized response parses to, with no validation of the
question count or entry shape; only a failure of `json.loads` itself
(after sanitization and fence-stripping) is a hard error.
`create_assignment` then stores whatever list sits under
`"questions"`, defaulting to empty. -/
theorem generate_questions_passthrough (loads : String → Option Json)
    (raw : String) :
    (∀ j, loads (sanitized_questions raw) = some j →
      generate_questions loads raw = .ok j) ∧
    (loads (sanitized_questions raw) = none →
      generate_questions loads raw =
        .error (.parseError "Failed to parse questions")) := by
  constructor
  · intro j h
    unfold generate_questions
    rw [h]
  · intro h
    unfold generate_questions
    rw [h]

/-- Witness for the amended C6 at the concrete one-question payload. -/
theorem generate_questions_passthrough_witness :
    generate_questions loadsOneQuestion oneQuestionRaw = .ok oneQuestionJson :=
  (generate_questions_passthrough loadsOneQuestion oneQuestionRaw).1
    oneQuestionJson rfl

end StoryTeller
